import Mathlib

/-!
Shallow embedding of the authentication / authorization core of the
`the-evolution-of-todo` repository:

* `src/todo-phase-III/backend/src/lib/jwt_utils.py` (TokenCodec),
* `src/todo-phase-III/backend/src/utils/rate_limiter.py` (RateLimiter),
* `src/backend/src/api/auth.py` (login endpoint, get_user_by_id endpoint),
* `src/backend/src/services/user_isolation_service.py` (OwnershipScope),
* `src/backend/src/api/tasks.py` (task endpoints).

Timestamps are integer seconds since the epoch; the database session is
modelled as an explicit list of rows; Python functions that can raise an
exception past their boundary return a `PyResult`.
-/

namespace Todo

/-- A JSON claim value as it appears in a token payload: a string or an
integer.  JSON `null` is indistinguishable from an absent key through
Python's `dict.get`, so absent-or-null is modelled by `Option.none` at the
field level. -/
inductive JVal where
  | jstr (s : String)
  | jint (n : Int)
  deriving Repr, DecidableEq

/-- Python truthiness of a claim value: the empty string and the integer 0
are falsy, everything else is truthy. -/
def pyTruthy : JVal → Bool
  | .jstr s => !s.isEmpty
  | .jint _n => _n != 0

/-- Value of a non-empty list of decimal digit characters. -/
def digitsToNat (ds : List Char) : Nat :=
  ds.foldl (fun n c => n * 10 + (c.toNat - '0'.toNat)) 0

/-- Python's `int(s)` on a string: an optional sign followed by at least
one decimal digit parses to its value, anything else raises `ValueError`
(modelled as `none`). -/
def pyInt? (s : String) : Option Int :=
  match s.data with
  | [] => none
  | '-' :: ds =>
    if ds ≠ [] ∧ ds.all Char.isDigit then some (-(digitsToNat ds : Int)) else none
  | '+' :: ds =>
    if ds ≠ [] ∧ ds.all Char.isDigit then some (digitsToNat ds : Int) else none
  | ds => if ds.all Char.isDigit then some (digitsToNat ds : Int) else none

/-- Interpretation of a claim value as an integer, mirroring
`int(user_id)` applied to a string value (`ValueError` becomes `none`) and
the identity on integer values. -/
def jvalToInt : JVal → Option Int
  | .jstr s => pyInt? s
  | .jint n => some n

/-- The decoded JWT payload dictionary, restricted to the keys the code
reads: `sub`, `user_id`, `email`, `exp`, `iat`. -/
structure Payload where
  sub : Option JVal := none
  user_id : Option JVal := none
  email : Option String := none
  exp : Option Int := none
  iat : Option Int := none
  deriving Repr, DecidableEq

/-- An HMAC signature, modelled abstractly: the signature a holder of
`secret` produces over a header (carrying `alg`) and a payload.  Two
signatures agree exactly when secret, algorithm and signed bytes agree,
which is the ideal-MAC assumption the code relies on. -/
structure Sig where
  secret : String
  alg : String
  signedPayload : Payload
  deriving Repr, DecidableEq

/-- The input handed to the token functions: either a structurally valid
three-segment JWT (header carrying `alg`, payload, signature) or a string
that does not parse into three dot-separated base64 segments. -/
inductive TokenInput where
  | wellFormed (alg : String) (payload : Payload) (sig : Sig)
  | malformed (s : String)
  deriving Repr, DecidableEq

/-- Result of running a Python function that may raise: a normal return
value or an escaped exception. -/
inductive PyResult (α : Type) where
  | ok (a : α)
  | exn (e : String)
  deriving Repr, DecidableEq

/-- `ACCESS_TOKEN_EXPIRE_MINUTES` from `jwt_utils.py` (default 1440). -/
def ACCESS_TOKEN_EXPIRE_MINUTES : Int := 1440

/-- Smallest timestamp `datetime.utcfromtimestamp` accepts (year 1). -/
def MIN_TS : Int := -62135596800

/-- Largest timestamp `datetime.utcfromtimestamp` accepts (year 9999). -/
def MAX_TS : Int := 253402300799

/-- `jose.jwt.decode(token, secret, algorithms=[alg])`: raises `JWTError`
when the string is not a three-segment JWT, when the header algorithm is
not the configured one, or when the signature does not verify; raises
`ExpiredSignatureError` (a `JWTError`) when an integer `exp` claim lies in
the past.  A missing `exp` claim is not rejected by the library. -/
def jwtDecode (secret alg : String) (now : Int) : TokenInput → Except String Payload
  | .malformed _s => .error "JWTError"
  | .wellFormed talg p sig =>
    if talg ≠ alg then .error "JWTError"
    else if sig ≠ ⟨secret, talg, p⟩ then .error "JWTError"
    else
      match p.exp with
      | some e => if e < now then .error "ExpiredSignatureError" else .ok p
      | none => .ok p

/-- `create_access_token(data, expires_delta)` from `jwt_utils.py`:
copies `data`, overwrites `exp := now + delta` (default
`ACCESS_TOKEN_EXPIRE_MINUTES` minutes) and `iat := now`, and signs with
the configured secret and algorithm. -/
def create_access_token (secret alg : String) (now : Int) (data : Payload)
    (expires_delta : Option Int) : TokenInput :=
  let expire : Int := now + expires_delta.getD (ACCESS_TOKEN_EXPIRE_MINUTES * 60)
  let payload : Payload := { data with exp := some expire, iat := some now }
  .wellFormed alg payload ⟨secret, alg, payload⟩

/-- `verify_token(token)` from `jwt_utils.py`: decodes inside a
`try/except JWTError` block (any `JWTError` becomes `None`); on success it
re-checks expiry, but only when the `exp` value is truthy, by converting
it with `datetime.utcfromtimestamp` — a conversion that raises an
`OverflowError`/`ValueError` (NOT a `JWTError`, hence uncaught) when the
timestamp is outside the `datetime` range. -/
def verify_token (secret alg : String) (now : Int) (tok : TokenInput) :
    PyResult (Option Payload) :=
  match jwtDecode secret alg now tok with
  | .error _e => .ok none
  | .ok payload =>
    match payload.exp with
    | none => .ok (some payload)
    | some e =>
      if e = 0 then .ok (some payload)
      else if e < MIN_TS ∨ MAX_TS < e then .exn "OverflowError"
      else if now > e then .ok none
      else .ok (some payload)

/-- `is_token_expired(payload)` from `jwt_utils.py`: a missing or falsy
`exp` claim counts as expired; otherwise compare with now (the
`utcfromtimestamp` conversion can raise outside the datetime range). -/
def is_token_expired (now : Int) (p : Payload) : PyResult Bool :=
  match p.exp with
  | none => .ok true
  | some e =>
    if e = 0 then .ok true
    else if e < MIN_TS ∨ MAX_TS < e then .exn "OverflowError"
    else .ok (now > e)

/-- The claim-extraction block of `get_user_id_from_token` (lines 144-154
of `jwt_utils.py`): `user_id = payload.get("sub")`; if that is falsy,
`user_id = payload.get("user_id")`; a string value is parsed with `int`,
returning `None` on `ValueError`. -/
def extract_user_id (p : Payload) : Option Int :=
  let uid : Option JVal :=
    match p.sub with
    | some v => if pyTruthy v then some v else p.user_id
    | none => p.user_id
  match uid with
  | none => none
  | some (.jstr s) => pyInt? s
  | some (.jint n) => some n

/-- `get_user_id_from_token(token)` from `jwt_utils.py`: verify, return
`None` when verification fails, else extract the identifying claim. -/
def get_user_id_from_token (secret alg : String) (now : Int) (tok : TokenInput) :
    PyResult (Option Int) :=
  match verify_token secret alg now tok with
  | .exn e => .exn e
  | .ok none => .ok none
  | .ok (some p) => .ok (extract_user_id p)

/-! ## RateLimiter (`rate_limiter.py`)

A key's state is the deque of admitted timestamps, oldest first. -/

/-- The purge loop of `RateLimiter.is_allowed`: pop from the front while
the oldest entry is older than `now - window`. -/
def purge (window now : Int) : List Int → List Int
  | [] => []
  | t :: ts => if t < now - window then purge window now ts else t :: ts

/-- `RateLimiter.is_allowed(key, max_requests, window_size)` on one key's
sequence: purge, then admit (appending `now`) iff fewer than
`max_requests` entries remain. -/
def is_allowed (max_requests : Nat) (window now : Int) (q : List Int) :
    Bool × List Int :=
  let q2 := purge window now q
  if q2.length < max_requests then (true, q2 ++ [now]) else (false, q2)

/-- `RateLimiter.get_reset_time(key, window_size)`: oldest entry plus the
window, or `now` when the sequence is empty. -/
def get_reset_time (window now : Int) (q : List Int) : Int :=
  match q with
  | [] => now
  | t :: _ts => t + window

/-- Run a sequence of `is_allowed` calls (call times in order) against one
key, returning the list of outcomes and the final sequence. -/
def runCalls (max_requests : Nat) (window : Int) :
    List Int → List Int → List Bool × List Int
  | [], q => ([], q)
  | t :: ts, q =>
    let r := is_allowed max_requests window t q
    let rest := runCalls max_requests window ts r.2
    (r.1 :: rest.1, rest.2)

/-- `AuthRateLimiter.LOGIN_ATTEMPTS_LIMIT`. -/
def LOGIN_ATTEMPTS_LIMIT : Nat := 5

/-- `AuthRateLimiter.LOGIN_WINDOW_SIZE` (seconds). -/
def LOGIN_WINDOW_SIZE : Int := 900

/-- Outcome of the `login` endpoint in `src/backend/src/api/auth.py`,
restricted to its rate-limiting shape. -/
inductive LoginOutcome where
  | tooMany (resetTime : Int)
  | badCredentials
  | inactive
  | success
  deriving Repr, DecidableEq

/-- The `login` endpoint of `auth.py` acting on one rate-limit key's
sequence: first `is_login_allowed` (an `is_allowed` call; on rejection the
reset time is read and a 429 is raised); on failed password
authentication a second `is_allowed` call on the same key is made before
raising 401; an inactive user or success leave the sequence as after the
first call. -/
def login (authOk isActive : Bool) (now : Int) (q : List Int) :
    LoginOutcome × List Int :=
  let r1 := is_allowed LOGIN_ATTEMPTS_LIMIT LOGIN_WINDOW_SIZE now q
  if !r1.1 then
    (.tooMany (get_reset_time LOGIN_WINDOW_SIZE now r1.2), r1.2)
  else if !authOk then
    let r2 := is_allowed LOGIN_ATTEMPTS_LIMIT LOGIN_WINDOW_SIZE now r1.2
    (.badCredentials, r2.2)
  else if !isActive then (.inactive, r1.2)
  else (.success, r1.2)

/-- Run consecutive failed-password login attempts (call times in order)
against one key. -/
def runFailedLogins : List Int → List Int → List LoginOutcome × List Int
  | [], q => ([], q)
  | t :: ts, q =>
    let r := login false true t q
    let rest := runFailedLogins ts r.2
    (r.1 :: rest.1, rest.2)

/-! ## OwnershipScope (`user_isolation_service.py`) and the task endpoints
(`api/tasks.py`, `api/auth.py`)

The `task` table is modelled as a list of rows in insertion order;
`id` is the primary key, `user_id` the owner attribute.  `created_at` and
`updated_at` are carried as plain timestamps. -/

/-- A row of the `task` table (`models/task.py`). -/
structure Task where
  id : Int
  user_id : Int
  title : String
  description : Option String
  is_completed : Bool
  created_at : Int
  updated_at : Int
  deriving Repr, DecidableEq

/-- The `TaskUpdate` request body: optional fields; the endpoint copies
only the non-`None` ones into `update_data`. -/
structure TaskUpdateData where
  title : Option String := none
  description : Option String := none
  is_completed : Option Bool := none
  deriving Repr, DecidableEq

/-- `UserIsolationService.get_single_user_resource`: one query filtered by
BOTH the owner attribute and the primary key, returning the first match
(`.first()`). -/
def get_single_user_resource (store : List Task) (resource_id user_id : Int) :
    Option Task :=
  store.find? (fun t => t.user_id == user_id && t.id == resource_id)

/-- The `setattr` loop of `update_user_resource`: set exactly the
attributes present in `update_data` on the found row. -/
def applyUpdate (u : TaskUpdateData) (t : Task) : Task :=
  { t with
    title := u.title.getD t.title,
    description := match u.description with
      | some d => some d
      | none => t.description,
    is_completed := u.is_completed.getD t.is_completed }

/-- Replace the first row satisfying `p` by its image under `f`
(the in-place ORM mutation of the row found by the scoped query). -/
def updateFirst (p : Task → Bool) (f : Task → Task) : List Task → List Task
  | [] => []
  | t :: ts => if p t then f t :: ts else t :: updateFirst p f ts

/-- Remove the first row satisfying `p` (`db_session.delete` of the row
found by the scoped query). -/
def removeFirst (p : Task → Bool) : List Task → List Task
  | [] => []
  | t :: ts => if p t then ts else t :: removeFirst p ts

/-- `UserIsolationService.update_user_resource`: owner-scoped lookup; on
miss return `False` leaving the table untouched; on hit apply the patch to
the found row and commit. -/
def update_user_resource (store : List Task) (resource_id user_id : Int)
    (update_data : TaskUpdateData) : Bool × List Task :=
  match get_single_user_resource store resource_id user_id with
  | none => (false, store)
  | some _r =>
    (true, updateFirst (fun t => t.user_id == user_id && t.id == resource_id)
      (applyUpdate update_data) store)

/-- `UserIsolationService.delete_user_resource`: owner-scoped lookup; on
miss return `False` leaving the table untouched; on hit delete the row. -/
def delete_user_resource (store : List Task) (resource_id user_id : Int) :
    Bool × List Task :=
  match get_single_user_resource store resource_id user_id with
  | none => (false, store)
  | some _r =>
    (true, removeFirst (fun t => t.user_id == user_id && t.id == resource_id) store)

/-- The response of a task endpoint: a task body or an
`HTTPException(status_code, detail)`. -/
inductive TaskResponse where
  | ok (t : Task)
  | err (status : Nat) (detail : String)
  deriving Repr, DecidableEq

/-- The `GET /api/{user_id}/tasks/{task_id}` handler (`get_task` in
`api/tasks.py`): a URL/principal mismatch raises 403 before any lookup;
otherwise the owner-scoped lookup runs and a miss raises 404
"Task not found". -/
def get_task (url_user_id task_id current_user_id : Int) (store : List Task) :
    TaskResponse :=
  if url_user_id ≠ current_user_id then
    .err 403 "Access denied: user ID in URL does not match authenticated user"
  else
    match get_single_user_resource store task_id current_user_id with
    | some t => .ok t
    | none => .err 404 "Task not found"

/-- A row of the `user` table, restricted to the fields the endpoint
reads. -/
structure User where
  id : Int
  email : String
  deriving Repr, DecidableEq

/-- The response of the `GET /auth/{user_id}` endpoint. -/
inductive UserResponse where
  | ok (user_id : Int) (email : String)
  | err (status : Nat) (detail : String)
  deriving Repr, DecidableEq

/-- The `GET /auth/{user_id}` handler (`get_user_by_id` in
`api/auth.py`): a URL/principal mismatch returns 404 "User not found"
(never 403, per the anti-enumeration comment in the source); a match
looks the user up and a missing row is the same 404. -/
def get_user_by_id (url_user_id current_user_id : Int) (users : List User) :
    UserResponse :=
  if current_user_id ≠ url_user_id then .err 404 "User not found"
  else
    match users.find? (fun u => u.id == url_user_id) with
    | some u => .ok u.id u.email
    | none => .err 404 "User not found"

/-! ## Concrete inputs used in closed theorems and witnesses -/

/-- The `SECRET_KEY` default from `jwt_utils.py`. -/
def SECRET_KEY : String := "your-32-character-secret-key-here"

/-- The `ALGORITHM` default from `jwt_utils.py`. -/
def ALGORITHM : String := "HS256"

/-- A payload carrying identifying claims but no `exp` claim. -/
def payloadNoExp : Payload :=
  { sub := some (.jstr "1"), user_id := some (.jint 1),
    email := some "a@example.com" }

/-- A token over `payloadNoExp`, correctly signed with the configured
secret and algorithm. -/
def tokenNoExp : TokenInput :=
  .wellFormed ALGORITHM payloadNoExp ⟨SECRET_KEY, ALGORITHM, payloadNoExp⟩

/-- A payload carrying both identifying claims with different values and a
far-future (but in-range) expiry. -/
def payloadBothIds : Payload :=
  { sub := some (.jstr "7"), user_id := some (.jint 9),
    exp := some 2000000000 }

/-- A correctly signed token over `payloadBothIds`. -/
def tokenBothIds : TokenInput :=
  .wellFormed ALGORITHM payloadBothIds ⟨SECRET_KEY, ALGORITHM, payloadBothIds⟩

/-- A payload whose `exp` claim is an integer far beyond the range
`datetime.utcfromtimestamp` accepts. -/
def payloadHugeExp : Payload :=
  { user_id := some (.jint 1), exp := some 1000000000000000000000000000000 }

/-- A correctly signed token over `payloadHugeExp`. -/
def tokenHugeExp : TokenInput :=
  .wellFormed ALGORITHM payloadHugeExp ⟨SECRET_KEY, ALGORITHM, payloadHugeExp⟩

/-- A task row used in concrete witnesses: id 42, owned by user 1. -/
def taskA : Task :=
  { id := 42, user_id := 1, title := "buy milk", description := none,
    is_completed := false, created_at := 0, updated_at := 0 }

/-! ## Helper lemmas -/

/-- Purging the empty sequence. -/
theorem purge_nil (window now : Int) : purge window now [] = [] := rfl

/-- The purge loop keeps the whole sequence when the oldest entry is not
older than the window. -/
theorem purge_cons_keep (window now t : Int) (ts : List Int)
    (h : ¬ t < now - window) : purge window now (t :: ts) = t :: ts := by
  simp [purge, h]

/-- The purge loop drops the oldest entry when it is older than the
window. -/
theorem purge_cons_drop (window now t : Int) (ts : List Int)
    (h : t < now - window) : purge window now (t :: ts) = purge window now ts := by
  simp [purge, h]

/-- Purging never lengthens the sequence. -/
theorem purge_length_le (window now : Int) (q : List Int) :
    (purge window now q).length ≤ q.length := by
  induction q with
  | nil => simp [purge]
  | cons t ts ih =>
    by_cases h : t < now - window
    · rw [purge_cons_drop window now t ts h]
      exact Nat.le_succ_of_le ih
    · rw [purge_cons_keep window now t ts h]

/-- Purging at a later time subsumes an earlier purge. -/
theorem purge_purge (window now now2 : Int) (q : List Int) (h : now ≤ now2) :
    purge window now2 (purge window now q) = purge window now2 q := by
  induction q with
  | nil => simp [purge]
  | cons t ts ih =>
    by_cases ht : t < now - window
    · have ht2 : t < now2 - window := by linarith
      rw [purge_cons_drop window now t ts ht, purge_cons_drop window now2 t ts ht2, ih]
    · rw [purge_cons_keep window now t ts ht]

/-- Inversion of a rejected `is_allowed` call: the stored sequence after
the call is exactly the purged sequence — nothing was appended. -/
theorem is_allowed_false_state (m : Nat) (w now : Int) (q q1 : List Int)
    (h : is_allowed m w now q = (false, q1)) : q1 = purge w now q := by
  unfold is_allowed at h
  by_cases hl : (purge w now q).length < m
  · simp [hl] at h
  · simp [hl] at h
    exact h.symm

/-- A rejected call does not change the verdict or the state of any later
`is_allowed` call, since the later call purges at a later time anyway. -/
theorem is_allowed_after_purge (m : Nat) (w now t : Int) (q : List Int)
    (h : now ≤ t) :
    is_allowed m w t (purge w now q) = is_allowed m w t q := by
  unfold is_allowed
  rw [purge_purge w now t q h]

/-- The owner-scoped lookup misses when the row carrying the requested
primary key (unique in the table) belongs to someone else. -/
theorem find_owned_eq_none (store : List Task) (R : Task) (B : Int)
    (hmem : R ∈ store) (hnodup : (store.map Task.id).Nodup)
    (hown : R.user_id ≠ B) :
    get_single_user_resource store R.id B = none := by
  unfold get_single_user_resource
  rw [List.find?_eq_none]
  intro t ht
  simp only [Bool.and_eq_true, beq_iff_eq]
  rintro ⟨hub, hid⟩
  have hteq : t = R := List.inj_on_of_nodup_map hnodup ht hmem (by rw [hid])
  rw [hteq] at hub
  exact hown hub

/-- The owner-scoped lookup misses when no row carries the requested
primary key at all. -/
theorem find_absent_eq_none (store : List Task) (i B : Int)
    (habs : store.all (fun t => t.id != i) = true) :
    get_single_user_resource store i B = none := by
  unfold get_single_user_resource
  rw [List.find?_eq_none]
  intro t ht
  simp only [Bool.and_eq_true, beq_iff_eq]
  rintro ⟨_hub, hid⟩
  rw [List.all_eq_true] at habs
  have hne := habs t ht
  simp [hid] at hne

/-! ## Claim theorems -/

/-- Claim C1 counterexample: the task endpoints do NOT treat a URL-path /
principal mismatch as NotFound — `get_task` short-circuits to a 403
"Access denied" response, which differs from the 404 "Task not found"
outcome. -/
theorem url_mismatch_on_tasks_is_403_not_404 :
    get_task 1 42 2 []
      = .err 403 "Access denied: user ID in URL does not match authenticated user"
    ∧ get_task 1 42 2 [] ≠ .err 404 "Task not found" := by
  constructor
  · decide
  · decide

/-- Claim C1 (amended): on a URL-path / principal mismatch the task
endpoints short-circuit to HTTP 403 ("Access denied...") before any
resource lookup, while the auth `get_user_by_id` endpoint treats the same
mismatch as the uniform 404 "User not found" outcome. -/
theorem url_mismatch_403_on_tasks_404_on_users
    (u tid c : Int) (store : List Task) (users : List User) (h : u ≠ c) :
    get_task u tid c store
      = .err 403 "Access denied: user ID in URL does not match authenticated user"
    ∧ get_user_by_id u c users = .err 404 "User not found" := by
  constructor
  · simp [get_task, h]
  · have hcu : c ≠ u := fun hc => h hc.symm
    simp [get_user_by_id, hcu]

/-- Witness for the amended C1 at a concrete mismatching request. -/
theorem url_mismatch_403_on_tasks_404_on_users_witness :
    get_task 1 42 2 []
      = .err 403 "Access denied: user ID in URL does not match authenticated user"
    ∧ get_user_by_id 1 2 [] = .err 404 "User not found" :=
  url_mismatch_403_on_tasks_404_on_users 1 42 2 [] [] (by decide)

/-- Claim C2: for a resource `R` owned by `A` and a principal `B ≠ A`,
the owner-scoped single read through `get_task` yields the 404
"Task not found" response, identical to the response for an id that does
not exist in the table at all. -/
theorem cross_user_get_indistinguishable_from_missing
    (store : List Task) (R : Task) (A B missingId : Int)
    (hmem : R ∈ store) (hA : R.user_id = A) (hAB : A ≠ B)
    (hnodup : (store.map Task.id).Nodup)
    (habs : store.all (fun t => t.id != missingId) = true) :
    get_task B R.id B store = .err 404 "Task not found"
    ∧ get_task B missingId B store = .err 404 "Task not found"
    ∧ get_task B R.id B store = get_task B missingId B store := by
  have h1 : get_single_user_resource store R.id B = none :=
    find_owned_eq_none store R B hmem hnodup (by rw [hA]; exact hAB)
  have h2 : get_single_user_resource store missingId B = none :=
    find_absent_eq_none store missingId B habs
  refine ⟨?_, ?_, ?_⟩ <;> simp [get_task, h1, h2]

/-- Witness for C2: user 2 reads user 1's task 42, and the nonexistent
id 99, over a one-row table. -/
theorem cross_user_get_indistinguishable_from_missing_witness :
    get_task 2 42 2 [taskA] = .err 404 "Task not found"
    ∧ get_task 2 99 2 [taskA] = .err 404 "Task not found"
    ∧ get_task 2 42 2 [taskA] = get_task 2 99 2 [taskA] :=
  cross_user_get_indistinguishable_from_missing [taskA] taskA 1 2 99
    (by decide) (by decide) (by decide) (by decide) (by decide)

/-- Claim C3: `update_user_resource` and `delete_user_resource` called by
a non-owner return the failure outcome and leave the table byte-for-byte
unchanged — no row is modified and none is deleted. -/
theorem non_owner_update_delete_leave_store_unchanged
    (store : List Task) (R : Task) (A B : Int) (patch : TaskUpdateData)
    (hmem : R ∈ store) (hA : R.user_id = A) (hAB : A ≠ B)
    (hnodup : (store.map Task.id).Nodup) :
    update_user_resource store R.id B patch = (false, store)
    ∧ delete_user_resource store R.id B = (false, store) := by
  have h1 : get_single_user_resource store R.id B = none :=
    find_owned_eq_none store R B hmem hnodup (by rw [hA]; exact hAB)
  constructor
  · simp [update_user_resource, h1]
  · simp [delete_user_resource, h1]

/-- Witness for C3: user 2 tries to update and delete user 1's task 42. -/
theorem non_owner_update_delete_leave_store_unchanged_witness :
    update_user_resource [taskA] 42 2
        { title := some "stolen", description := none, is_completed := some true }
      = (false, [taskA])
    ∧ delete_user_resource [taskA] 42 2 = (false, [taskA]) :=
  non_owner_update_delete_leave_store_unchanged [taskA] taskA 1 2
    { title := some "stolen", description := none, is_completed := some true }
    (by decide) (by decide) (by decide) (by decide)

/-- Claim C4: with `max=5, window=900` and a fixed key, each of the first
5 `is_allowed` calls made within the window of the first call returns
true, the 6th call within the same window returns false, and once more
than 900 seconds have elapsed since the first admitted call a subsequent
call returns true again. -/
theorem sliding_window_admits_5_then_blocks_then_recovers
    (t1 t2 t3 t4 t5 t6 t7 : Int)
    (h2 : t2 ≤ t1 + 900) (h3 : t3 ≤ t1 + 900) (h4 : t4 ≤ t1 + 900)
    (h5 : t5 ≤ t1 + 900) (h6 : t6 ≤ t1 + 900) (h7 : t1 + 900 < t7) :
    (runCalls 5 900 [t1, t2, t3, t4, t5, t6, t7] []).1
      = [true, true, true, true, true, false, true] := by
  have k2 : purge 900 t2 [t1] = [t1] :=
    purge_cons_keep 900 t2 t1 [] (by linarith)
  have k3 : purge 900 t3 [t1, t2] = [t1, t2] :=
    purge_cons_keep 900 t3 t1 [t2] (by linarith)
  have k4 : purge 900 t4 [t1, t2, t3] = [t1, t2, t3] :=
    purge_cons_keep 900 t4 t1 [t2, t3] (by linarith)
  have k5 : purge 900 t5 [t1, t2, t3, t4] = [t1, t2, t3, t4] :=
    purge_cons_keep 900 t5 t1 [t2, t3, t4] (by linarith)
  have k6 : purge 900 t6 [t1, t2, t3, t4, t5] = [t1, t2, t3, t4, t5] :=
    purge_cons_keep 900 t6 t1 [t2, t3, t4, t5] (by linarith)
  have s1 : is_allowed 5 900 t1 [] = (true, [t1]) := by
    simp [is_allowed, purge]
  have s2 : is_allowed 5 900 t2 [t1] = (true, [t1, t2]) := by
    simp [is_allowed, k2]
  have s3 : is_allowed 5 900 t3 [t1, t2] = (true, [t1, t2, t3]) := by
    simp [is_allowed, k3]
  have s4 : is_allowed 5 900 t4 [t1, t2, t3] = (true, [t1, t2, t3, t4]) := by
    simp [is_allowed, k4]
  have s5 : is_allowed 5 900 t5 [t1, t2, t3, t4] = (true, [t1, t2, t3, t4, t5]) := by
    simp [is_allowed, k5]
  have s6 : is_allowed 5 900 t6 [t1, t2, t3, t4, t5] = (false, [t1, t2, t3, t4, t5]) := by
    simp [is_allowed, k6]
  have d7 : purge 900 t7 [t1, t2, t3, t4, t5] = purge 900 t7 [t2, t3, t4, t5] :=
    purge_cons_drop 900 t7 t1 [t2, t3, t4, t5] (by linarith)
  have l7 : (purge 900 t7 [t1, t2, t3, t4, t5]).length < 5 := by
    rw [d7]
    have hle := purge_length_le 900 t7 [t2, t3, t4, t5]
    simp at hle
    omega
  have s7 : (is_allowed 5 900 t7 [t1, t2, t3, t4, t5]).1 = true := by
    simp [is_allowed, l7]
  simp [runCalls, s1, s2, s3, s4, s5, s6, s7]

/-- Witness for C4 at concrete call times. -/
theorem sliding_window_admits_5_then_blocks_then_recovers_witness :
    (runCalls 5 900 [0, 1, 2, 3, 4, 5, 901] []).1
      = [true, true, true, true, true, false, true] :=
  sliding_window_admits_5_then_blocks_then_recovers 0 1 2 3 4 5 901
    (by decide) (by decide) (by decide) (by decide) (by decide) (by decide)

/-- Claim C5: a rejected `is_allowed` call appends no timestamp — the
stored sequence is at most purged — so every later sequence of calls (at
times no earlier than the rejected call) produces the same verdicts as if
the rejected call had not happened. -/
theorem rejected_call_consumes_no_budget (m : Nat) (w now : Int)
    (ts : List Int) (q q1 : List Int)
    (hts : ts.all (fun t => now ≤ t) = true)
    (hrej : is_allowed m w now q = (false, q1)) :
    q1 = purge w now q ∧ (runCalls m w ts q1).1 = (runCalls m w ts q).1 := by
  have hq : q1 = purge w now q := is_allowed_false_state m w now q q1 hrej
  subst hq
  refine ⟨rfl, ?_⟩
  cases ts with
  | nil => rfl
  | cons t rest =>
    have hnt : now ≤ t := by
      simp [List.all_cons] at hts
      exact hts.1
    simp [runCalls, is_allowed_after_purge m w now t q hnt]

/-- Witness for C5: key with one stale and one fresh entry, limit 1; the
call at time 5 is rejected, only purges, and the call at time 6 behaves
identically with or without the rejected call. -/
theorem rejected_call_consumes_no_budget_witness :
    ([0] : List Int) = purge 10 5 [-20, 0] ∧
      (runCalls 1 10 [6] [0]).1 = (runCalls 1 10 [6] [-20, 0]).1 :=
  rejected_call_consumes_no_budget 1 10 5 [6] [-20, 0] [0]
    (by decide) (by decide)

/-- Claim C10: with every password authentication failing, each failed
login under the 5-per-900s limit performs the admission `is_allowed` call
and then a second force-record `is_allowed` call on the same key, so the
first two failed logins record two timestamps each, the third fills the
fifth slot (its force-record call is itself rejected), and the fourth
attempt is answered 429 with the reset time of the first recorded
timestamp. -/
theorem three_failed_logins_exhaust_budget (t1 t2 t3 t4 : Int)
    (h2 : t2 ≤ t1 + 900) (h3 : t3 ≤ t1 + 900) (h4 : t4 ≤ t1 + 900) :
    (runFailedLogins [t1, t2, t3, t4] []).1
      = [.badCredentials, .badCredentials, .badCredentials, .tooMany (t1 + 900)]
    ∧ (runFailedLogins [t1] []).2 = [t1, t1]
    ∧ (runFailedLogins [t1, t2] []).2 = [t1, t1, t2, t2]
    ∧ (runFailedLogins [t1, t2, t3] []).2 = [t1, t1, t2, t2, t3] := by
  have k1 : purge 900 t1 [t1] = [t1] :=
    purge_cons_keep 900 t1 t1 [] (by linarith)
  have k2a : purge 900 t2 [t1, t1] = [t1, t1] :=
    purge_cons_keep 900 t2 t1 [t1] (by linarith)
  have k2b : purge 900 t2 [t1, t1, t2] = [t1, t1, t2] :=
    purge_cons_keep 900 t2 t1 [t1, t2] (by linarith)
  have k3a : purge 900 t3 [t1, t1, t2, t2] = [t1, t1, t2, t2] :=
    purge_cons_keep 900 t3 t1 [t1, t2, t2] (by linarith)
  have k3b : purge 900 t3 [t1, t1, t2, t2, t3] = [t1, t1, t2, t2, t3] :=
    purge_cons_keep 900 t3 t1 [t1, t2, t2, t3] (by linarith)
  have k4 : purge 900 t4 [t1, t1, t2, t2, t3] = [t1, t1, t2, t2, t3] :=
    purge_cons_keep 900 t4 t1 [t1, t2, t2, t3] (by linarith)
  have L1 : login false true t1 [] = (.badCredentials, [t1, t1]) := by
    simp [login, is_allowed, purge_nil, k1, LOGIN_ATTEMPTS_LIMIT, LOGIN_WINDOW_SIZE]
  have L2 : login false true t2 [t1, t1] = (.badCredentials, [t1, t1, t2, t2]) := by
    simp [login, is_allowed, k2a, k2b, LOGIN_ATTEMPTS_LIMIT, LOGIN_WINDOW_SIZE]
  have L3 : login false true t3 [t1, t1, t2, t2]
      = (.badCredentials, [t1, t1, t2, t2, t3]) := by
    simp [login, is_allowed, k3a, k3b, LOGIN_ATTEMPTS_LIMIT, LOGIN_WINDOW_SIZE]
  have L4 : login false true t4 [t1, t1, t2, t2, t3]
      = (.tooMany (t1 + 900), [t1, t1, t2, t2, t3]) := by
    simp [login, is_allowed, k4, get_reset_time, LOGIN_ATTEMPTS_LIMIT,
      LOGIN_WINDOW_SIZE]
  refine ⟨?_, ?_, ?_, ?_⟩ <;> simp [runFailedLogins, L1, L2, L3, L4]

/-- Witness for C10 at concrete attempt times. -/
theorem three_failed_logins_exhaust_budget_witness :
    (runFailedLogins [100, 200, 300, 400] []).1
      = [.badCredentials, .badCredentials, .badCredentials, .tooMany 1000]
    ∧ (runFailedLogins [100] []).2 = [100, 100]
    ∧ (runFailedLogins [100, 200] []).2 = [100, 100, 200, 200]
    ∧ (runFailedLogins [100, 200, 300] []).2 = [100, 100, 200, 200, 300] :=
  three_failed_logins_exhaust_budget 100 200 300 400
    (by decide) (by decide) (by decide)

/-- Claim C6 (code bug exhibited): `verify_token` ACCEPTS a well-signed
token whose payload lacks the `exp` claim — it returns the claims rather
than the Invalid sentinel — even though `is_token_expired` in the same
file classifies the very same payload as expired. -/
theorem missing_exp_token_accepted_by_verify :
    verify_token SECRET_KEY ALGORITHM 1700000000 tokenNoExp
      = .ok (some payloadNoExp)
    ∧ is_token_expired 1700000000 payloadNoExp = .ok true := by
  constructor
  · decide
  · decide

/-- Claim C7: verifying a token freshly issued from a claim set with a
valid positive userId — before its expiry, under the same secret and
algorithm, with the expiry inside the datetime range — succeeds and
returns exactly the claim set extended by the added `iat` and `exp`
fields. -/
theorem issue_verify_roundtrip (secret alg : String) (data : Payload)
    (now now2 uid : Int)
    (_huid : data.user_id = some (.jint uid)) (_hpos : 0 < uid)
    (_hexp0 : data.exp = none) (_hiat0 : data.iat = none)
    (hfresh : now2 ≤ now + 86400)
    (hlo : MIN_TS ≤ now + 86400) (hhi : now + 86400 ≤ MAX_TS) :
    verify_token secret alg now2 (create_access_token secret alg now data none)
      = .ok (some { data with exp := some (now + 86400), iat := some now }) := by
  have hne : ¬ (now + 86400 < now2) := by linarith
  by_cases hz : now + 86400 = 0
  · have hne0 : ¬ ((0 : Int) < now2) := by omega
    simp [create_access_token, verify_token, jwtDecode,
      ACCESS_TOKEN_EXPIRE_MINUTES, hne, hz, hne0]
  · have hb : ¬ (now + 86400 < MIN_TS ∨ MAX_TS < now + 86400) := by
      push_neg
      exact ⟨hlo, hhi⟩
    have hng : ¬ (now2 > now + 86400) := by linarith
    simp [create_access_token, verify_token, jwtDecode,
      ACCESS_TOKEN_EXPIRE_MINUTES, hne, hz, hb, hng]

/-- Witness for C7: a token issued at epoch 1700000000 for user 1 and
verified one second later. -/
theorem issue_verify_roundtrip_witness :
    verify_token SECRET_KEY ALGORITHM 1700000001
        (create_access_token SECRET_KEY ALGORITHM 1700000000 payloadNoExp none)
      = .ok (some { payloadNoExp with exp := some 1700086400, iat := some 1700000000 }) :=
  issue_verify_roundtrip SECRET_KEY ALGORITHM payloadNoExp 1700000000 1700000001 1
    (by decide) (by decide) (by decide) (by decide) (by decide) (by decide)
    (by decide)

/-- Claim C8 counterexample: on a successfully verified token carrying
both identifying claims with different values, `get_user_id_from_token`
returns the `sub` value, not the `user_id` value — the subject claim, not
the userId claim, wins. -/
theorem sub_claim_wins_over_user_id :
    verify_token SECRET_KEY ALGORITHM 1700000000 tokenBothIds
      = .ok (some payloadBothIds)
    ∧ get_user_id_from_token SECRET_KEY ALGORITHM 1700000000 tokenBothIds
      = .ok (some 7)
    ∧ payloadBothIds.user_id = some (.jint 9)
    ∧ (7 : Int) ≠ 9 := by
  refine ⟨by decide, by decide, by decide, by decide⟩

/-- Claim C8 (amended): for every token that verifies successfully,
`get_user_id_from_token` reads the `sub` claim first and falls back to
the `user_id` claim only when `sub` is absent or falsy (empty string or
zero); a string value is parsed as an integer; the result is Invalid when
neither claim is usable or the value is empty/non-numeric. -/
theorem extract_user_id_prefers_sub (secret alg : String) (now : Int)
    (tok : TokenInput) (p : Payload)
    (hok : verify_token secret alg now tok = .ok (some p)) :
    get_user_id_from_token secret alg now tok = .ok (extract_user_id p)
    ∧ extract_user_id p =
        (match p.sub with
         | some v => if pyTruthy v then jvalToInt v else p.user_id.bind jvalToInt
         | none => p.user_id.bind jvalToInt) := by
  constructor
  · simp [get_user_id_from_token, hok]
  · cases hs : p.sub with
    | none =>
      cases hu : p.user_id with
      | none => simp [extract_user_id, hs, hu]
      | some v => cases v <;> simp [extract_user_id, hs, hu, jvalToInt]
    | some v =>
      by_cases ht : pyTruthy v
      · cases v <;> simp [extract_user_id, hs, ht, jvalToInt]
      · cases hu : p.user_id with
        | none => simp [extract_user_id, hs, hu, ht]
        | some w => cases w <;> simp [extract_user_id, hs, hu, ht, jvalToInt]

/-- Witness for the amended C8 on the concrete two-claim token. -/
theorem extract_user_id_prefers_sub_witness :
    get_user_id_from_token SECRET_KEY ALGORITHM 1700000000 tokenBothIds
      = .ok (extract_user_id payloadBothIds)
    ∧ extract_user_id payloadBothIds =
        (match payloadBothIds.sub with
         | some v => if pyTruthy v then jvalToInt v
                     else payloadBothIds.user_id.bind jvalToInt
         | none => payloadBothIds.user_id.bind jvalToInt) :=
  extract_user_id_prefers_sub SECRET_KEY ALGORITHM 1700000000 tokenBothIds
    payloadBothIds (by decide)

/-- Claim C9 (code bug exhibited): `verify_token` catches only `JWTError`,
but its expiry re-check converts the `exp` claim with
`datetime.utcfromtimestamp`; on a well-signed token whose `exp` is outside
the datetime range that conversion raises an `OverflowError`, which
escapes `verify_token` instead of becoming the Invalid sentinel. -/
theorem verify_raises_on_huge_exp :
    verify_token SECRET_KEY ALGORITHM 1700000000 tokenHugeExp
      = .exn "OverflowError"
    ∧ (PyResult.exn "OverflowError" : PyResult (Option Payload))
      ≠ .ok none := by
  constructor
  · decide
  · decide

end Todo
